import Mathlib

/-!
Verification development for the recurring-reminder scheduling engine of
the telegram reminder bot (src/bot.py).  The Python source is shallowly
embedded: each relevant handler becomes a pure Lean function over explicit
state (database rows, the in-process scheduler job table, the connection
pool counter), and effects of the external chat platform are passed in as
explicit outcome parameters.

Modelling conventions:
  - Python strings are Lean Strings.  Python str.isdigit and str.lower are
    modelled on the ASCII range (Unicode digit variants and non-ASCII case
    folding are outside the modelled input space; they do not affect any
    claim settled here).
  - APScheduler job ids are produced in the source as str(rid) for an
    integer rid; since str is injective on integers, jobs are keyed here
    directly by the numeric id.
  - The connection pool is modelled by its counters (free / in-use); the
    identity of individual connections is irrelevant to the claims.
-/

/-! ## Day-of-week translation tables (bot.py lines 34-47) -/

/-- RU_TO_CRON_DAY (bot.py 35-43): Russian day name to cron day token. -/
def RU_TO_CRON_DAY : List (String × String) :=
  [("понедельник", "mon"),
   ("вторник", "tue"),
   ("среда", "wed"),
   ("четверг", "thu"),
   ("пятница", "fri"),
   ("суббота", "sat"),
   ("воскресенье", "sun")]

/-- Python dict .get on RU_TO_CRON_DAY / membership test `day in RU_TO_CRON_DAY`. -/
def ruToCronDay (d : String) : Option String :=
  List.lookup d RU_TO_CRON_DAY

/-- NUM_TO_RU_DAY (bot.py 44-47): numeric token to Russian day name;
both "0" and "7" map to воскресенье (Sunday). -/
def NUM_TO_RU_DAY : List (String × String) :=
  [("1", "понедельник"), ("2", "вторник"), ("3", "среда"), ("4", "четверг"),
   ("5", "пятница"), ("6", "суббота"), ("7", "воскресенье"), ("0", "воскресенье")]

/-- Python NUM_TO_RU_DAY.get(day_raw) (bot.py 595). -/
def numToRuDay (d : String) : Option String :=
  List.lookup d NUM_TO_RU_DAY

/-! ## Python string primitives used by the handlers

These are written over the character list of the string so that every
function is structurally recursive and evaluates inside the kernel. -/

/-- Python s.split(sep) for a one-character separator: split at every
occurrence, keeping empty pieces (so "a::b".split(":") has three pieces and
"".split(":") is [""], as in Python). -/
def splitOnChar (sep : Char) : List Char → List (List Char)
  | [] => [[]]
  | c :: rest =>
    match splitOnChar sep rest with
    | h :: t => if c == sep then [] :: h :: t else (c :: h) :: t
    | [] => if c == sep then [[], []] else [[c]]

/-- Python str.isdigit (ASCII fragment): nonempty and all characters are
digits. -/
def pyIsDigit (s : String) : Bool :=
  !s.data.isEmpty && s.data.all Char.isDigit

/-- The numeric value of a nonempty all-digit character sequence, none
otherwise. -/
def digitsToNat? (cs : List Char) : Option Nat :=
  if cs.isEmpty then none
  else if cs.all Char.isDigit then
    some (cs.foldl (fun acc c => acc * 10 + (c.toNat - 48)) 0)
  else none

/-- Python whitespace stripping of both ends, as int() applies to its
argument. -/
def pyStrip (cs : List Char) : List Char :=
  ((cs.dropWhile Char.isWhitespace).reverse.dropWhile Char.isWhitespace).reverse

/-- Python int(s) (ASCII fragment): strips surrounding whitespace, accepts an
optional sign followed by at least one digit; any other shape raises
ValueError, modelled as none. -/
def pyInt (s : String) : Option Int :=
  match pyStrip s.data with
  | '-' :: rest => (digitsToNat? rest).map (fun n => -(n : Int))
  | '+' :: rest => (digitsToNat? rest).map (fun n => (n : Int))
  | t => (digitsToNat? t).map (fun n => (n : Int))

/-- Python str.lower (ASCII fragment). -/
def pyLower (s : String) : String :=
  ⟨s.data.map Char.toLower⟩

/-- Python text.split(" ", 2) (bot.py 583): split on every single space but
keep everything after the second space as one final piece (empty pieces are
kept, as Python does with an explicit separator). -/
def pySplitSpace2 (s : String) : List String :=
  match splitOnChar ' ' s.data with
  | a :: b :: c :: rest => [⟨a⟩, ⟨b⟩, ⟨List.intercalate [' '] (c :: rest)⟩]
  | xs => xs.map (fun l => ⟨l⟩)

/-! ## The scheduler job table (APScheduler, running-scheduler semantics)

The source drives APScheduler through scheduler.add_job(...) and
scheduler.remove_job(...).  With the scheduler started (bot.py 799-802 starts
it before any job is added), add_job with an id already present in the job
store raises ConflictingIdError — the source never passes replace_existing —
and remove_job on an absent id raises JobLookupError.  A cron job is
identified by its id and carries the recurrence fields the source passes at
the two call sites (bot.py 276-281 and 659-667). -/

/-- One armed cron trigger: the recurrence rule (cron day token, hour, minute,
timezone) plus the dispatch payload (chat, optional thread, text).  The firing
instants of an armed trigger are determined by its day/hour/minute/timezone
fields. -/
structure Job where
  id : Nat
  dayOfWeek : String
  hour : Int
  minute : Int
  tz : String
  chatId : Int
  threadId : Option Int
  text : String
deriving DecidableEq

/-- The in-process scheduler state: the table of armed jobs. -/
structure Scheduler where
  jobs : List Job
deriving DecidableEq

/-- scheduler.add_job with an explicit id and the default
replace_existing=False: inserting an id already present raises
ConflictingIdError and leaves the job table unchanged. -/
def Scheduler.addJob (s : Scheduler) (j : Job) : Except String Scheduler :=
  if s.jobs.any (fun k => k.id == j.id) then Except.error "ConflictingIdError"
  else Except.ok ⟨s.jobs ++ [j]⟩

/-- scheduler.remove_job: removing an absent id raises JobLookupError. -/
def Scheduler.removeJob (s : Scheduler) (rid : Nat) : Except String Scheduler :=
  if s.jobs.any (fun k => k.id == rid) then
    Except.ok ⟨s.jobs.filter (fun k => !(k.id == rid))⟩
  else Except.error "JobLookupError"

/-- The Cancel layer of delete_input (bot.py 741-744):
try: scheduler.remove_job(str(rid)) except: pass — any lookup failure is
swallowed and the scheduler is left as it was. -/
def cancelJob (s : Scheduler) (rid : Nat) : Scheduler :=
  match s.removeJob rid with
  | Except.ok s2 => s2
  | Except.error _ => s

/-! ## Persistent store (PostgreSQL tables, bot.py 133-157) -/

/-- The value stored in the TIME column as the source observes it on read
(bot.py 275): either a structured time value carrying .hour/.minute, or a
literal "HH:MM" string (historical schema drift tolerated by load_jobs). -/
inductive TimeVal where
  | structured (hour minute : Nat)
  | str (s : String)
deriving DecidableEq

/-- One row of the reminders table (bot.py 137-145); id is the SERIAL
primary key. -/
structure Row where
  id : Nat
  userId : Int
  chatId : Int
  threadId : Option Int
  day : String
  time : TimeVal
  text : String
deriving DecidableEq

/-- The database state visible to the handlers: the reminders table with its
SERIAL counter, and the user_timezones table (user_id primary key). -/
structure DB where
  nextId : Nat
  reminders : List Row
  userTimezones : List (Int × String)
deriving DecidableEq

/-- The tzrow[0] if tzrow else "UTC" pattern (bot.py 657) and the SQL
COALESCE(ut.timezone,'UTC') over the LEFT JOIN (bot.py 256, 265): look up the
single user_timezones row for uid and substitute "UTC" when it is absent. -/
def resolveTz (tzs : List (Int × String)) (uid : Int) : String :=
  match tzs.find? (fun p => p.1 == uid) with
  | some p => p.2
  | none => "UTC"

/-! ## load_jobs: rehydration of persisted reminders (bot.py 248-281) -/

/-- One row of the joined SELECT of load_jobs (bot.py 253-270): the reminder
columns together with the owner timezone resolved through COALESCE. -/
structure JoinedRow where
  rid : Nat
  day : String
  time : TimeVal
  text : String
  chatId : Int
  threadId : Option Int
  tz : String
deriving DecidableEq

/-- The SELECT ... LEFT JOIN user_timezones ... COALESCE(ut.timezone,'UTC')
read of load_jobs (bot.py 252-270): every reminder row joined with the
resolved timezone of its owner. -/
def listAllWithResolvedTimezone (db : DB) : List JoinedRow :=
  db.reminders.map (fun r =>
    ⟨r.id, r.day, r.time, r.text, r.chatId, r.threadId,
     resolveTz db.userTimezones r.userId⟩)

/-- bot.py 275: hh, mm = (tm.hour, tm.minute) if hasattr(tm, "hour")
else map(int, tm.split(":")).  The structured branch reads the attributes;
the string branch splits on ":" and converts each piece with int, failing
(ValueError, modelled as none) unless there are exactly two int-convertible
pieces. -/
def timeHM : TimeVal → Option (Int × Int)
  | TimeVal.structured h m => some ((h : Int), (m : Int))
  | TimeVal.str s =>
    match splitOnChar ':' s.data with
    | [a, b] =>
      match pyInt ⟨a⟩, pyInt ⟨b⟩ with
      | some hh, some mm => some (hh, mm)
      | _, _ => none
    | _ => none

/-- One iteration of the load_jobs installation loop (bot.py 274-281): the
hour/minute are computed first, then scheduler.add_job is called with
day_of_week=RU_TO_CRON_DAY[d] (a KeyError on an unknown day name propagates,
as does a ValueError from the time unpacking and a ConflictingIdError from
add_job). -/
def installRow (sched : Scheduler) (jr : JoinedRow) : Except String Scheduler :=
  match timeHM jr.time with
  | none => Except.error "ValueError"
  | some (hh, mm) =>
    match ruToCronDay jr.day with
    | none => Except.error "KeyError"
    | some cron =>
      sched.addJob ⟨jr.rid, cron, hh, mm, jr.tz, jr.chatId, jr.threadId, jr.text⟩

/-- The job a valid joined row is installed as (the arguments of the add_job
call at bot.py 276-281); only applied to rows whose time and day are valid. -/
def rowJob (jr : JoinedRow) : Job :=
  match timeHM jr.time, ruToCronDay jr.day with
  | some (hh, mm), some cron =>
      ⟨jr.rid, cron, hh, mm, jr.tz, jr.chatId, jr.threadId, jr.text⟩
  | _, _ => ⟨jr.rid, "", 0, 0, jr.tz, jr.chatId, jr.threadId, jr.text⟩

/-- load_jobs (bot.py 248-281): read every reminder with its resolved
timezone, then install one cron job per row. -/
def load_jobs (db : DB) (sched : Scheduler) : Except String Scheduler :=
  (listAllWithResolvedTimezone db).foldlM installRow sched

/-! ## add_input: the add-reminder handler (bot.py 581-675) -/

/-- bot.py 615-625: try: hh, mm = map(int, time_str.split(":"));
assert 0 <= hh < 24 and 0 <= mm < 60; except: reject.  none models the
caught exception (ValueError from splitting/conversion/unpacking or
AssertionError from the range check). -/
def pyTimeParse (time_str : String) : Option (Int × Int) :=
  match splitOnChar ':' time_str.data with
  | [a, b] =>
    match pyInt ⟨a⟩, pyInt ⟨b⟩ with
    | some hh, some mm =>
      if 0 ≤ hh ∧ hh < 24 ∧ 0 ≤ mm ∧ mm < 60 then some (hh, mm) else none
    | _, _ => none
  | _ => none

/-- The outcome of one add_input invocation.  The invalid cases re-prompt the
user (return ADD_INPUT) without touching any state; conflict models a
ConflictingIdError escaping from scheduler.add_job after the row was already
committed (bot.py 659-667 has no exception handling). -/
inductive AddResult where
  | invalidFormat
  | invalidDayNum
  | invalidDay
  | invalidTime
  | conflict (rid : Nat)
  | ok (rid : Nat)
deriving DecidableEq

/-- The tail of add_input once the day name is resolved (bot.py 606-667):
check day membership in RU_TO_CRON_DAY, parse and range-check the time,
INSERT the row RETURNING id, read the owner timezone (default "UTC"), and
arm the cron trigger via scheduler.add_job. -/
def add_input_core (day time_str rem_text : String) (uid chatId : Int)
    (threadId : Option Int) (db : DB) (sched : Scheduler) :
    AddResult × DB × Scheduler :=
  match ruToCronDay day with
  | none => (AddResult.invalidDay, db, sched)
  | some cron =>
    match pyTimeParse time_str with
    | none => (AddResult.invalidTime, db, sched)
    | some (hh, mm) =>
      let rid := db.nextId
      let db1 : DB :=
        { db with nextId := db.nextId + 1,
                  reminders := db.reminders ++
                    [⟨rid, uid, chatId, threadId, day, TimeVal.str time_str, rem_text⟩] }
      let tz := resolveTz db1.userTimezones uid
      match sched.addJob ⟨rid, cron, hh, mm, tz, chatId, threadId, rem_text⟩ with
      | Except.ok s2 => (AddResult.ok rid, db1, s2)
      | Except.error _ => (AddResult.conflict rid, db1, sched)

/-- The day-token resolution of add_input (bot.py 594-605): a digit token
goes through NUM_TO_RU_DAY (rejected when absent), any other token is
lower-cased and taken as a day name. -/
def resolveDayToken (day_raw : String) : Option String :=
  if pyIsDigit day_raw then numToRuDay day_raw else some (pyLower day_raw)

/-- add_input (bot.py 581-675): split the message into day / time / text,
resolve a numeric day token through NUM_TO_RU_DAY or lower-case a day name,
then run the validated tail. -/
def add_input (text : String) (uid chatId : Int) (threadId : Option Int)
    (db : DB) (sched : Scheduler) : AddResult × DB × Scheduler :=
  match pySplitSpace2 text with
  | [day_raw, time_str, rem_text] =>
    match resolveDayToken day_raw with
    | none => (AddResult.invalidDayNum, db, sched)
    | some day => add_input_core day time_str rem_text uid chatId threadId db sched
  | _ => (AddResult.invalidFormat, db, sched)

/-! ## delete_input: the delete-reminder handler (bot.py 703-752) -/

/-- The outcome of one delete_input invocation. -/
inductive DelResult where
  | notNumeric
  | notFound
  | deleted (rid : Nat)
deriving DecidableEq

/-- delete_input (bot.py 703-752): reject a non-numeric id; SELECT the row
matching id AND user_id AND chat_id and report not-found when absent;
otherwise DELETE the row (by primary key) and disarm the trigger through the
swallowing Cancel layer. -/
def delete_input (txt : String) (uid chatId : Int) (db : DB) (sched : Scheduler) :
    DelResult × DB × Scheduler :=
  if !(pyIsDigit txt) then (DelResult.notNumeric, db, sched)
  else
    let rid := (digitsToNat? txt.data).getD 0
    if db.reminders.any (fun r => r.id == rid && r.userId == uid && r.chatId == chatId) then
      let db1 : DB := { db with reminders := db.reminders.filter (fun r => !(r.id == rid)) }
      (DelResult.deleted rid, db1, cancelJob sched rid)
    else (DelResult.notFound, db, sched)

/-! ## location_handler: the timezone-upsert path (bot.py 320-343) -/

/-- INSERT INTO user_timezones ... ON CONFLICT(user_id) DO UPDATE SET
timezone = EXCLUDED.timezone (bot.py 328-332): idempotent last-write-wins
upsert keyed by user_id. -/
def upsertTimezone (tzs : List (Int × String)) (uid : Int) (tz : String) :
    List (Int × String) :=
  if tzs.any (fun p => p.1 == uid) then
    tzs.map (fun p => if p.1 == uid then (p.1, tz) else p)
  else tzs ++ [(uid, tz)]

/-- location_handler (bot.py 320-343): resolved is the value returned by the
geolocation lookup tf.timezone_at (none when no timezone is found for the
coordinates); tz_str = tf.timezone_at(...) or "UTC" substitutes "UTC" on a
failed resolution, and tz_str is then persisted by the upsert. -/
def location_handler (resolved : Option String) (uid : Int) (db : DB) : DB :=
  let tz_str := match resolved with
    | some s => s
    | none => "UTC"
  { db with userTimezones := upsertTimezone db.userTimezones uid tz_str }

/-! ## The dispatcher (bot.py 240-245) and its firing wrapper -/

/-- The message identity returned by a successful send. -/
structure SentMsg where
  chatId : Int
  msgId : Int
deriving DecidableEq

/-- The observable side effects of dispatching: the registrations handed to
the self-cleanup scheduler (schedule_deletion, bot.py 118-122) and the error
log. -/
structure DispatchState where
  deletionTasks : List (Int × Int)
  log : List String
deriving DecidableEq

/-- send_reminder (bot.py 240-245): awaits bot.send_message and, on success,
calls schedule_deletion(msg.chat_id, msg.message_id).  There is no exception
handling in this function: a failed send propagates to the caller (the
scheduler executor).  sendOutcome is the outcome of the external send call. -/
def send_reminder (sendOutcome : Except String SentMsg) (st : DispatchState) :
    Except String DispatchState :=
  match sendOutcome with
  | Except.error e => Except.error e
  | Except.ok m =>
      Except.ok { st with deletionTasks := st.deletionTasks ++ [(m.chatId, m.msgId)] }

/-- Modelled from the spec: the firing wrapper around the job callback.  The
callback send_reminder runs inside the APScheduler executor (library code,
not under src/); per the spec, failure of the send call is logged and
swallowed, never retried, and never cancels the recurring trigger, so the
cron job table is untouched by a firing. -/
def fireJob (sched : Scheduler) (sendOutcome : Except String SentMsg)
    (st : DispatchState) : Scheduler × DispatchState :=
  match send_reminder sendOutcome st with
  | Except.ok st2 => (sched, st2)
  | Except.error e => (sched, { st with log := st.log ++ [e] })

/-! ## The connection pool discipline (bot.py 94-102 and every store op) -/

/-- The connection pool observed through its counters: how many connections
are free and how many are checked out. -/
structure Pool where
  free : Nat
  inUse : Nat
deriving DecidableEq

/-- db_pool.getconn via get_conn (bot.py 101): hands out a connection while
one is free; an exhausted ThreadedConnectionPool raises PoolError, modelled
as none. -/
def getconn (p : Pool) : Option Pool :=
  if p.free == 0 then none else some ⟨p.free - 1, p.inUse + 1⟩

/-- db_pool.putconn via put_conn (bot.py 102). -/
def putconn (p : Pool) : Pool :=
  ⟨p.free + 1, p.inUse - 1⟩

/-- The conn = get_conn(); try: body; finally: put_conn(conn) shape shared by
every store operation in the source: the body runs only after a successful
acquisition, and the connection is returned on every exit of the body,
whether it produced a value or raised. -/
def withConn {α : Type} (p : Pool) (body : Except String α) :
    Except String α × Pool :=
  match getconn p with
  | none => (Except.error "PoolError", p)
  | some p1 => (body, putconn p1)

/-- is_allowed (bot.py 214-225) with the pool threaded through; qok = false
models a transport/query error raised inside the scoped body. -/
def is_allowed_pooled (adminIds allowedUsers : List Int) (uid : Int)
    (qok : Bool) (p : Pool) : Except String Bool × Pool :=
  if uid ∈ adminIds then (Except.ok true, p)
  else withConn p
    (if qok then Except.ok (allowedUsers.contains uid)
     else Except.error "QueryError")

/-- The INSERT ... RETURNING id store operation of add_input (bot.py
639-647), pool threaded through. -/
def add_insert_pooled (db : DB) (row : Row) (qok : Bool) (p : Pool) :
    Except String (Nat × DB) × Pool :=
  withConn p
    (if qok then
      Except.ok (db.nextId,
        { db with nextId := db.nextId + 1, reminders := db.reminders ++ [row] })
     else Except.error "QueryError")

/-- The SELECT timezone store operation of add_input (bot.py 649-657), pool
threaded through; the "UTC" substitution itself happens after the release. -/
def add_tzread_pooled (db : DB) (uid : Int) (qok : Bool) (p : Pool) :
    Except String (Option String) × Pool :=
  withConn p
    (if qok then Except.ok ((db.userTimezones.find? (fun q => q.1 == uid)).map (fun q => q.2))
     else Except.error "QueryError")

/-- The fetch phase of load_jobs (bot.py 248-273): the joined SELECT runs
under the acquired connection, and the connection is returned before any job
is installed. -/
def load_fetch_pooled (db : DB) (qok : Bool) (p : Pool) :
    Except String (List JoinedRow) × Pool :=
  withConn p
    (if qok then Except.ok (listAllWithResolvedTimezone db)
     else Except.error "QueryError")

/-! ## Canonical "HH:MM" formatting used to compare the two stored
time representations -/

/-- The ASCII digit character for n below 10. -/
def digitChar (n : Nat) : Char := Char.ofNat (48 + n)

/-- Two-digit zero-padded decimal rendering of n below 100. -/
def fmt2 (n : Nat) : String := ⟨[digitChar (n / 10), digitChar (n % 10)]⟩

/-- The literal "HH:MM" string for a wall-clock time. -/
def fmtHHMM (h m : Nat) : String := ⟨(fmt2 h).data ++ ':' :: (fmt2 m).data⟩

/-! ## Helper lemmas (shared across the claim theorems) -/

/-- add_job on a fresh id appends the job. -/
theorem addJob_fresh (s : Scheduler) (j : Job) (h : ∀ k ∈ s.jobs, k.id ≠ j.id) :
    s.addJob j = Except.ok ⟨s.jobs ++ [j]⟩ := by
  have hany : s.jobs.any (fun k => k.id == j.id) = false := by
    simp only [List.any_eq_false]
    intro k hk
    simp [h k hk]
  simp [Scheduler.addJob, hany]

/-- add_job on an armed id raises ConflictingIdError. -/
theorem addJob_existing (s : Scheduler) (j k : Job) (hk : k ∈ s.jobs)
    (hid : k.id = j.id) : s.addJob j = Except.error "ConflictingIdError" := by
  have hany : s.jobs.any (fun q => q.id == j.id) = true := by
    simp only [List.any_eq_true]
    exact ⟨k, hk, by simp [hid]⟩
  simp [Scheduler.addJob, hany]

/-- remove_job on an unarmed id raises JobLookupError. -/
theorem removeJob_absent (s : Scheduler) (rid : Nat)
    (h : ∀ k ∈ s.jobs, k.id ≠ rid) :
    s.removeJob rid = Except.error "JobLookupError" := by
  have hany : s.jobs.any (fun k => k.id == rid) = false := by
    simp only [List.any_eq_false]
    intro k hk
    simp [h k hk]
  simp [Scheduler.removeJob, hany]

/-- The scoped-acquisition combinator returns the pool to its initial state
on every exit of the body. -/
theorem withConn_pool {α : Type} (p : Pool) (body : Except String α) :
    (withConn p body).2 = p := by
  obtain ⟨f, u⟩ := p
  by_cases h : f = 0
  · simp [withConn, getconn, h]
  · simp only [withConn, getconn]
    have hf : (f == 0) = false := by simp [h]
    simp only [hf, Bool.false_eq_true, if_false, putconn]
    have hf1 : f - 1 + 1 = f := by omega
    simp [hf1]

/-- Rewriting the timezone of the matching row commutes with find?. -/
theorem find?_upsert_map (tzs : List (Int × String)) (uid : Int) (tz : String) :
    List.find? (fun p => p.1 == uid)
        (tzs.map (fun p => if p.1 == uid then (p.1, tz) else p)) =
      (List.find? (fun p => p.1 == uid) tzs).map (fun p => (p.1, tz)) := by
  induction tzs with
  | nil => rfl
  | cons q t ih =>
    simp only [List.map_cons, List.find?_cons]
    by_cases hq : q.1 = uid
    · simp [hq]
    · have hq2 : (q.1 == uid) = false := by simp [hq]
      simp only [hq2, Bool.false_eq_true, if_false, List.find?_cons, ih]

/-- An upserted timezone row is what a subsequent resolved read returns. -/
theorem resolveTz_upsert (tzs : List (Int × String)) (uid : Int) (tz : String) :
    resolveTz (upsertTimezone tzs uid tz) uid = tz := by
  unfold upsertTimezone resolveTz
  cases hany : tzs.any (fun p => p.1 == uid) with
  | true =>
    simp only [hany, if_true, find?_upsert_map]
    have hs : (List.find? (fun p => p.1 == uid) tzs).isSome := by
      rw [List.find?_isSome]
      obtain ⟨q, hq, hqid⟩ := List.any_eq_true.mp hany
      exact ⟨q, hq, hqid⟩
    obtain ⟨q, hq⟩ := Option.isSome_iff_exists.mp hs
    rw [hq]
    rfl
  | false =>
    simp only [hany, Bool.false_eq_true, if_false]
    have hnone : List.find? (fun p => p.1 == uid) tzs = none := by
      rw [List.find?_eq_none]
      intro q hq
      exact (List.any_eq_false.mp hany) q hq
    rw [List.find?_append, hnone]
    simp

/-- A read of an absent timezone row substitutes "UTC". -/
theorem resolveTz_absent (tzs : List (Int × String)) (uid : Int)
    (h : ∀ p ∈ tzs, p.1 ≠ uid) : resolveTz tzs uid = "UTC" := by
  unfold resolveTz
  have hnone : List.find? (fun p => p.1 == uid) tzs = none := by
    rw [List.find?_eq_none]
    intro q hq
    simp [h q hq]
  rw [hnone]

/-! ## Claim C1 -/

/-- Claim C1, counterexample.  The claim says a second Schedule call with the
same id first removes the prior trigger and the surviving trigger fires at
the second rule (tue 10:30).  On the code, the first add_job arms the first
rule (mon 09:00) and the second add_job raises ConflictingIdError, so the
armed trigger for id 7 still carries the first rule. -/
theorem C1_counterexample :
    Scheduler.addJob ⟨[]⟩ ⟨7, "mon", 9, 0, "UTC", 100, none, "standup"⟩ =
      Except.ok ⟨[⟨7, "mon", 9, 0, "UTC", 100, none, "standup"⟩]⟩ ∧
    Scheduler.addJob ⟨[⟨7, "mon", 9, 0, "UTC", 100, none, "standup"⟩]⟩
        ⟨7, "tue", 10, 30, "UTC", 100, none, "standup"⟩ =
      Except.error "ConflictingIdError" ∧
    List.filter (fun k : Job => k.id == 7)
        [(⟨7, "mon", 9, 0, "UTC", 100, none, "standup"⟩ : Job)] =
      [⟨7, "mon", 9, 0, "UTC", 100, none, "standup"⟩] :=
  ⟨rfl, rfl, rfl⟩

/-- Claim C1 (amended): the engine does hold at most one live trigger per
reminder id, but not by upsert: Schedule on an id that is already armed
raises ConflictingIdError and leaves the prior trigger unchanged, so after
two Schedule calls with the same id and different rules exactly one armed
trigger exists for that id and it fires at the FIRST rule instants, never
the second. -/
theorem C1_amended_second_schedule_rejected (s : Scheduler) (j1 j2 : Job)
    (hfresh : ∀ k ∈ s.jobs, k.id ≠ j1.id)
    (hid : j2.id = j1.id) :
    s.addJob j1 = Except.ok ⟨s.jobs ++ [j1]⟩ ∧
    Scheduler.addJob ⟨s.jobs ++ [j1]⟩ j2 = Except.error "ConflictingIdError" ∧
    (s.jobs ++ [j1]).filter (fun k => k.id == j1.id) = [j1] ∧
    ((s.jobs.map Job.id).Nodup → ((s.jobs ++ [j1]).map Job.id).Nodup) := by
  refine ⟨addJob_fresh s j1 hfresh, addJob_existing _ j2 j1 (by simp) hid.symm,
    ?_, ?_⟩
  · rw [List.filter_append]
    have h1 : s.jobs.filter (fun k => k.id == j1.id) = [] := by
      rw [List.filter_eq_nil_iff]
      intro k hk
      simp [hfresh k hk]
    simp [h1]
  · intro hn
    rw [List.map_append, List.nodup_append]
    have hnotin : j1.id ∉ s.jobs.map Job.id := by
      simp only [List.mem_map, not_exists]
      rintro k ⟨hk, hkid⟩
      exact hfresh k hk hkid
    refine ⟨hn, by simp, ?_⟩
    intro a ha
    simp only [List.map_cons, List.map_nil, List.mem_singleton]
    intro hcon
    exact hnotin (hcon ▸ ha)

/-- Claim C1 amended, witness at a concrete input. -/
theorem C1_amended_witness :
    Scheduler.addJob ⟨[]⟩ ⟨3, "wed", 8, 0, "UTC", 5, none, "x"⟩ =
      Except.ok ⟨[⟨3, "wed", 8, 0, "UTC", 5, none, "x"⟩]⟩ ∧
    Scheduler.addJob ⟨([] : List Job) ++ [⟨3, "wed", 8, 0, "UTC", 5, none, "x"⟩]⟩
        ⟨3, "fri", 17, 45, "UTC", 5, none, "y"⟩ =
      Except.error "ConflictingIdError" ∧
    ([] ++ [(⟨3, "wed", 8, 0, "UTC", 5, none, "x"⟩ : Job)]).filter
        (fun k : Job => k.id == 3) = [⟨3, "wed", 8, 0, "UTC", 5, none, "x"⟩] ∧
    ((([] : List Job).map Job.id).Nodup →
      ((([] : List Job) ++ [(⟨3, "wed", 8, 0, "UTC", 5, none, "x"⟩ : Job)]).map Job.id).Nodup) :=
  C1_amended_second_schedule_rejected ⟨[]⟩ ⟨3, "wed", 8, 0, "UTC", 5, none, "x"⟩
    ⟨3, "fri", 17, 45, "UTC", 5, none, "y"⟩ (by simp) (by decide)

/-! ## Claim C3 -/

/-- Claim C3, counterexample.  The claim says no operation ever persists
"UTC" as an explicit default row.  When the geolocation lookup resolves no
timezone (returns none), location_handler persists the substituted default
"UTC" as an explicit user_timezones row. -/
theorem C3_counterexample :
    location_handler none 1 ⟨0, [], []⟩ = ⟨0, [], [(1, "UTC")]⟩ := rfl

/-- Claim C3 (amended): the "UTC" default is substituted when a timezone row
is read and found absent, and the upsert path persists the timezone the
geolocation lookup resolved whenever resolution succeeds; but when the
lookup fails (returns none), the handler persists "UTC" itself as an
explicit fallback row. -/
theorem C3_amended_default_substituted_at_read (resolved : Option String)
    (uid : Int) (db : DB) (tzs : List (Int × String)) (tz : String) :
    (resolved = some tz →
      resolveTz (location_handler resolved uid db).userTimezones uid = tz) ∧
    (resolved = none →
      resolveTz (location_handler resolved uid db).userTimezones uid = "UTC") ∧
    ((∀ p ∈ tzs, p.1 ≠ uid) → resolveTz tzs uid = "UTC") := by
  refine ⟨?_, ?_, resolveTz_absent tzs uid⟩
  · rintro rfl
    simp only [location_handler]
    exact resolveTz_upsert db.userTimezones uid tz
  · rintro rfl
    simp only [location_handler]
    exact resolveTz_upsert db.userTimezones uid "UTC"

/-- Claim C3 amended, witness at concrete inputs. -/
theorem C3_amended_witness :
    (some "Europe/Moscow" = some "Europe/Moscow" →
      resolveTz (location_handler (some "Europe/Moscow") 9 ⟨0, [], [(9, "UTC")]⟩).userTimezones 9 =
        "Europe/Moscow") ∧
    ((some "Europe/Moscow" : Option String) = none →
      resolveTz (location_handler (some "Europe/Moscow") 9 ⟨0, [], [(9, "UTC")]⟩).userTimezones 9 =
        "UTC") ∧
    ((∀ p ∈ [((7 : Int), "Asia/Tokyo")], p.1 ≠ 9) → resolveTz [((7 : Int), "Asia/Tokyo")] 9 = "UTC") :=
  C3_amended_default_substituted_at_read (some "Europe/Moscow") 9 ⟨0, [], [(9, "UTC")]⟩
    [((7 : Int), "Asia/Tokyo")] "Europe/Moscow"

/-! ## Claim C4 -/

/-- Claim C4: when the send call fails, the failure is logged and swallowed
inside the dispatch (fireJob returns normally, no scheduling error), the
delivery is not retried (the only effect is one log entry; no deletion task
is registered), and the trigger table is unchanged in every case, so the
recurring trigger stays armed; on a successful send the message identity is
registered for delayed self-cleanup. -/
theorem C4_delivery_failure_swallowed (sched : Scheduler)
    (outcome : Except String SentMsg) (st : DispatchState) :
    (fireJob sched outcome st).1 = sched ∧
    (∀ e, outcome = Except.error e →
      (fireJob sched outcome st).2 = ⟨st.deletionTasks, st.log ++ [e]⟩) ∧
    (∀ msg, outcome = Except.ok msg →
      (fireJob sched outcome st).2 =
        ⟨st.deletionTasks ++ [(msg.chatId, msg.msgId)], st.log⟩) := by
  obtain ⟨dt, lg⟩ := st
  cases outcome <;> simp [fireJob, send_reminder]

/-- Claim C4, witness: a failed send at a concrete state. -/
theorem C4_witness :
    (fireJob ⟨[⟨1, "wed", 10, 15, "UTC", 100, none, "t"⟩]⟩
        (Except.error "NetworkError") ⟨[], []⟩).1 =
      ⟨[⟨1, "wed", 10, 15, "UTC", 100, none, "t"⟩]⟩ ∧
    (fireJob ⟨[⟨1, "wed", 10, 15, "UTC", 100, none, "t"⟩]⟩
        (Except.error "NetworkError") ⟨[], []⟩).2 = ⟨[], ["NetworkError"]⟩ :=
  ⟨(C4_delivery_failure_swallowed _ _ _).1,
   (C4_delivery_failure_swallowed _ _ _).2.1 "NetworkError" rfl⟩

/-! ## Claim C6 -/

/-- Claim C6: Cancel on an id that is not currently armed is a no-op that
returns success — cancelJob is a total function (the source wraps remove_job
in try/except pass, so no exception escapes) and the scheduler state is
returned unchanged. -/
theorem C6_cancel_unknown_noop (sched : Scheduler) (rid : Nat)
    (h : ∀ k ∈ sched.jobs, k.id ≠ rid) :
    cancelJob sched rid = sched := by
  unfold cancelJob
  rw [removeJob_absent sched rid h]

/-- Claim C6, witness: cancelling an unknown id on a nonempty scheduler. -/
theorem C6_witness :
    cancelJob ⟨[⟨1, "mon", 9, 0, "UTC", 100, none, "a"⟩]⟩ 7 =
      ⟨[⟨1, "mon", 9, 0, "UTC", 100, none, "a"⟩]⟩ :=
  C6_cancel_unknown_noop ⟨[⟨1, "mon", 9, 0, "UTC", 100, none, "a"⟩]⟩ 7 (by decide)

/-! ## Claim C9 -/

/-- Claim C9: each of the modelled store operations (the access check, the
two store operations of add_input, and the rehydration fetch) acquires one
connection and returns the pool to its initial state on every exit path —
success, pool exhaustion, or query error — so no execution leaks a
connection. -/
theorem C9_no_connection_leak (adminIds allowedUsers : List Int) (uid : Int)
    (db : DB) (row : Row) (q1 q2 q3 q4 : Bool) (p : Pool) :
    (is_allowed_pooled adminIds allowedUsers uid q1 p).2 = p ∧
    (add_insert_pooled db row q2 p).2 = p ∧
    (add_tzread_pooled db uid q3 p).2 = p ∧
    (load_fetch_pooled db q4 p).2 = p := by
  refine ⟨?_, withConn_pool p _, withConn_pool p _, withConn_pool p _⟩
  unfold is_allowed_pooled
  by_cases h : uid ∈ adminIds
  · simp [h]
  · simp only [h, if_false]
    exact withConn_pool p _

/-! ## Claim C2 -/

/-- Claim C2: Delete removes a reminder row only when the row matches id AND
owner AND chat, and reports whether a row was removed.  With no row matching
all three (mismatched owner or chat included), delete_input reports
not-found and leaves the rows and the scheduler untouched; with a matching
row r0, it reports deleted, removes exactly the rows carrying the id, and —
ids being unique (SERIAL primary key) — every removed row is r0 itself, the
row matching all three. -/
theorem C2_delete_requires_full_match (txt : String) (rid : Nat)
    (uid chatId : Int) (db : DB) (sched : Scheduler)
    (hdig : pyIsDigit txt = true)
    (hval : digitsToNat? txt.data = some rid)
    (hnodup : (db.reminders.map Row.id).Nodup) :
    ((∀ r ∈ db.reminders, ¬(r.id = rid ∧ r.userId = uid ∧ r.chatId = chatId)) →
      delete_input txt uid chatId db sched = (DelResult.notFound, db, sched)) ∧
    (∀ r0 ∈ db.reminders, r0.id = rid → r0.userId = uid → r0.chatId = chatId →
      (delete_input txt uid chatId db sched).1 = DelResult.deleted rid ∧
      (delete_input txt uid chatId db sched).2.1.reminders =
        db.reminders.filter (fun r => !(r.id == rid)) ∧
      (∀ r ∈ db.reminders,
        r ∉ (delete_input txt uid chatId db sched).2.1.reminders → r = r0)) := by
  constructor
  · intro hnomatch
    have hany : db.reminders.any
        (fun r => r.id == rid && r.userId == uid && r.chatId == chatId) = false := by
      simp only [List.any_eq_false]
      intro r hr
      intro hcon
      simp only [Bool.and_eq_true, beq_iff_eq] at hcon
      exact hnomatch r hr ⟨hcon.1.1, hcon.1.2, hcon.2⟩
    simp [delete_input, hdig, hval, hany]
  · intro r0 hr0 hid huid hchat
    have hany : db.reminders.any
        (fun r => r.id == rid && r.userId == uid && r.chatId == chatId) = true := by
      simp only [List.any_eq_true]
      exact ⟨r0, hr0, by simp [hid, huid, hchat]⟩
    refine ⟨by simp [delete_input, hdig, hval, hany], by simp [delete_input, hdig, hval, hany], ?_⟩
    intro r hr hrnot
    simp only [delete_input, hdig, Bool.not_true, Bool.false_eq_true, if_false, hval,
      Option.getD_some, hany, if_true] at hrnot
    have hpred : ¬((fun r => !(r.id == rid)) r = true) := by
      intro hp
      exact hrnot (List.mem_filter.mpr ⟨hr, hp⟩)
    have hr_id : r.id = rid := by
      by_contra hne
      exact hpred (by simp [hne])
    exact List.inj_on_of_nodup_map hnodup hr hr0 (by rw [hr_id, hid])

/-- Claim C2, witness: deletion with a mismatched owner is a not-found no-op. -/
theorem C2_witness :
    delete_input "1" 43 100
      ⟨2, [⟨1, 42, 100, none, "среда", TimeVal.str "10:15", "тест"⟩], []⟩
      ⟨[⟨1, "wed", 10, 15, "UTC", 100, none, "тест"⟩]⟩ =
    (DelResult.notFound,
     ⟨2, [⟨1, 42, 100, none, "среда", TimeVal.str "10:15", "тест"⟩], []⟩,
     ⟨[⟨1, "wed", 10, 15, "UTC", 100, none, "тест"⟩]⟩) :=
  (C2_delete_requires_full_match "1" 1 43 100
    ⟨2, [⟨1, 42, 100, none, "среда", TimeVal.str "10:15", "тест"⟩], []⟩
    ⟨[⟨1, "wed", 10, 15, "UTC", 100, none, "тест"⟩]⟩
    (by decide) (by decide) (by decide)).1 (by decide)

/-! ## Claim C7 -/

/-- Claim C7: an add-reminder input whose resolved day is not one of the
seven symbolic day names, or whose time fails the hour 0-23 / minute 0-59
validation, is rejected with a validation result, and the database and the
scheduler are left exactly as they were: validation runs before any store
mutation, so an invalid rule never persists a row or arms a trigger. -/
theorem C7_invalid_rule_rejected_before_mutation
    (text day_raw time_str rem_text : String) (uid chatId : Int)
    (threadId : Option Int) (db : DB) (sched : Scheduler)
    (hsplit : pySplitSpace2 text = [day_raw, time_str, rem_text])
    (hbad : (∀ day, resolveDayToken day_raw = some day → ruToCronDay day = none) ∨
            pyTimeParse time_str = none) :
    (add_input text uid chatId threadId db sched).2.1 = db ∧
    (add_input text uid chatId threadId db sched).2.2 = sched ∧
    ((add_input text uid chatId threadId db sched).1 = AddResult.invalidDayNum ∨
     (add_input text uid chatId threadId db sched).1 = AddResult.invalidDay ∨
     (add_input text uid chatId threadId db sched).1 = AddResult.invalidTime) := by
  simp only [add_input, hsplit]
  cases hres : resolveDayToken day_raw with
  | none => simp
  | some day =>
    rcases hbad with hday | htime
    · have hcron := hday day hres
      simp [add_input_core, hcron]
    · simp only [add_input_core]
      cases hc : ruToCronDay day with
      | none => simp
      | some cron => simp [htime]

/-- Claim C7, witness: an out-of-range time is rejected with no mutation. -/
theorem C7_witness :
    (add_input "среда 99:99 отчёт" 42 100 none ⟨5, [], []⟩ ⟨[]⟩).2.1 = ⟨5, [], []⟩ ∧
    (add_input "среда 99:99 отчёт" 42 100 none ⟨5, [], []⟩ ⟨[]⟩).2.2 = ⟨[]⟩ ∧
    ((add_input "среда 99:99 отчёт" 42 100 none ⟨5, [], []⟩ ⟨[]⟩).1 = AddResult.invalidDayNum ∨
     (add_input "среда 99:99 отчёт" 42 100 none ⟨5, [], []⟩ ⟨[]⟩).1 = AddResult.invalidDay ∨
     (add_input "среда 99:99 отчёт" 42 100 none ⟨5, [], []⟩ ⟨[]⟩).1 = AddResult.invalidTime) :=
  C7_invalid_rule_rejected_before_mutation "среда 99:99 отчёт" "среда" "99:99" "отчёт"
    42 100 none ⟨5, [], []⟩ ⟨[]⟩ (by decide) (Or.inr (by decide))

/-! ## Claim C10 -/

/-- Claim C10: at the add-command interface a numeric day token is accepted
exactly when it is one of the digit strings "0" through "7"; "0" and "7"
both map to воскресенье (Sunday); and a digit token outside this set is
rejected with no store mutation. -/
theorem C10_numeric_day_aliasing (text t time_str rem_text : String)
    (uid chatId : Int) (threadId : Option Int) (db : DB) (sched : Scheduler)
    (hsplit : pySplitSpace2 text = [t, time_str, rem_text])
    (hdig : pyIsDigit t = true) :
    ((numToRuDay t).isSome ↔
      t ∈ ["1", "2", "3", "4", "5", "6", "7", "0"]) ∧
    numToRuDay "0" = some "воскресенье" ∧
    numToRuDay "7" = some "воскресенье" ∧
    (numToRuDay t = none →
      add_input text uid chatId threadId db sched =
        (AddResult.invalidDayNum, db, sched)) := by
  refine ⟨?_, rfl, rfl, ?_⟩
  · rw [numToRuDay, List.lookup_isSome_iff]
    simp [NUM_TO_RU_DAY]
  · intro hnone
    have hres : resolveDayToken t = none := by
      simp [resolveDayToken, hdig, hnone]
    simp [add_input, hsplit, hres]

/-- Claim C10, witness: the digit token "8" is rejected with no mutation. -/
theorem C10_witness :
    add_input "8 10:00 планёрка" 42 100 none ⟨5, [], []⟩ ⟨[]⟩ =
      (AddResult.invalidDayNum, ⟨5, [], []⟩, ⟨[]⟩) :=
  (C10_numeric_day_aliasing "8 10:00 планёрка" "8" "10:00" "планёрка"
    42 100 none ⟨5, [], []⟩ ⟨[]⟩ (by decide) (by decide)).2.2.2 (by decide)

/-! ## Claim C5 -/

/-- The id of an installed job is the reminder id of its row. -/
theorem rowJob_id (jr : JoinedRow) : (rowJob jr).id = jr.rid := by
  rcases htm : timeHM jr.time with _ | ⟨hh, mm⟩ <;>
    rcases hcd : ruToCronDay jr.day with _ | cron <;>
    simp [rowJob, htm, hcd]

/-- The timezone of an installed job is the resolved timezone of its row. -/
theorem rowJob_tz (jr : JoinedRow) : (rowJob jr).tz = jr.tz := by
  rcases htm : timeHM jr.time with _ | ⟨hh, mm⟩ <;>
    rcases hcd : ruToCronDay jr.day with _ | cron <;>
    simp [rowJob, htm, hcd]

/-- Installing a valid row with a fresh id arms exactly its job. -/
theorem installRow_valid (sched : Scheduler) (jr : JoinedRow)
    (hh mm : Int) (cron : String)
    (htm : timeHM jr.time = some (hh, mm))
    (hcd : ruToCronDay jr.day = some cron)
    (hfresh : ∀ k ∈ sched.jobs, k.id ≠ jr.rid) :
    installRow sched jr = Except.ok ⟨sched.jobs ++ [rowJob jr]⟩ := by
  have hrj : rowJob jr = ⟨jr.rid, cron, hh, mm, jr.tz, jr.chatId, jr.threadId, jr.text⟩ := by
    simp [rowJob, htm, hcd]
  simp only [installRow, htm, hcd]
  rw [hrj]
  exact addJob_fresh sched _ hfresh

/-- The rehydration fold succeeds on valid rows with pairwise-distinct ids
that are fresh for the starting scheduler, and installs one job per row. -/
theorem foldlM_installRow_ok (rows : List JoinedRow) : ∀ (sched : Scheduler),
    (∀ jr ∈ rows, (timeHM jr.time).isSome ∧ (ruToCronDay jr.day).isSome) →
    (∀ jr ∈ rows, ∀ k ∈ sched.jobs, k.id ≠ jr.rid) →
    (rows.map JoinedRow.rid).Nodup →
    List.foldlM installRow sched rows = Except.ok ⟨sched.jobs ++ rows.map rowJob⟩ := by
  induction rows with
  | nil =>
    intro sched _ _ _
    simp only [List.foldlM, List.map_nil, List.append_nil]
    rfl
  | cons jr rest ih =>
    intro sched hvalid hfresh hnodup
    obtain ⟨htm0, hcd0⟩ := hvalid jr (List.mem_cons_self jr rest)
    obtain ⟨⟨hh, mm⟩, htm⟩ := Option.isSome_iff_exists.mp htm0
    obtain ⟨cron, hcd⟩ := Option.isSome_iff_exists.mp hcd0
    have hfr : ∀ k ∈ sched.jobs, k.id ≠ jr.rid :=
      hfresh jr (List.mem_cons_self jr rest)
    rw [List.foldlM_cons, installRow_valid sched jr hh mm cron htm hcd hfr]
    have hbind : (Except.ok (⟨sched.jobs ++ [rowJob jr]⟩ : Scheduler) >>=
        fun s => List.foldlM installRow s rest) =
        List.foldlM installRow ⟨sched.jobs ++ [rowJob jr]⟩ rest := rfl
    rw [hbind]
    have hnodup2 : ((jr :: rest).map JoinedRow.rid).Nodup := hnodup
    rw [List.map_cons, List.nodup_cons] at hnodup2
    rw [ih ⟨sched.jobs ++ [rowJob jr]⟩
      (fun q hq => hvalid q (List.mem_cons_of_mem _ hq))
      (fun q hq k hk => by
        rcases List.mem_append.mp hk with hk1 | hk2
        · exact hfresh q (List.mem_cons_of_mem _ hq) k hk1
        · have hkeq : k = rowJob jr := by simpa using hk2
          subst hkeq
          rw [rowJob_id]
          intro hcon
          exact hnodup2.1 (hcon ▸ List.mem_map_of_mem JoinedRow.rid hq))
      hnodup2.2]
    simp

/-- Claim C5: a persisted reminder whose owner has no timezone row is
rehydrated with the timezone string "UTC": over a store of well-formed rows
(valid day names, parseable times, distinct SERIAL ids) load_jobs succeeds,
and the job installed for such a reminder carries tz = "UTC" — the resolved
timezone is a total String, never an absent value. -/
theorem C5_rehydrate_missing_tz_uses_utc (db : DB) (r : Row)
    (hall : ∀ q ∈ db.reminders, (timeHM q.time).isSome ∧ (ruToCronDay q.day).isSome)
    (hnodup : (db.reminders.map Row.id).Nodup)
    (hr : r ∈ db.reminders)
    (hnotz : ∀ p ∈ db.userTimezones, p.1 ≠ r.userId) :
    load_jobs db ⟨[]⟩ = Except.ok ⟨(listAllWithResolvedTimezone db).map rowJob⟩ ∧
    ∃ j ∈ (listAllWithResolvedTimezone db).map rowJob,
      j.id = r.id ∧ j.tz = "UTC" := by
  constructor
  · unfold load_jobs
    have hres := foldlM_installRow_ok (listAllWithResolvedTimezone db) ⟨[]⟩
      (by
        intro jr hjr
        obtain ⟨q, hq, rfl⟩ := List.mem_map.mp hjr
        exact hall q hq)
      (by intro jr hjr k hk; simp at hk)
      (by
        unfold listAllWithResolvedTimezone
        rw [List.map_map]
        simpa using hnodup)
    simpa using hres
  · refine ⟨rowJob ⟨r.id, r.day, r.time, r.text, r.chatId, r.threadId,
      resolveTz db.userTimezones r.userId⟩, ?_, ?_, ?_⟩
    · exact List.mem_map_of_mem rowJob (List.mem_map_of_mem _ hr)
    · rw [rowJob_id]
    · rw [rowJob_tz]
      exact resolveTz_absent _ _ hnotz

/-- Claim C5, witness: one reminder, no timezone rows. -/
theorem C5_witness :
    load_jobs ⟨2, [⟨1, 42, 100, none, "пятница", TimeVal.structured 9 30, "standup"⟩], []⟩ ⟨[]⟩ =
      Except.ok ⟨(listAllWithResolvedTimezone
        ⟨2, [⟨1, 42, 100, none, "пятница", TimeVal.structured 9 30, "standup"⟩], []⟩).map rowJob⟩ ∧
    ∃ j ∈ (listAllWithResolvedTimezone
        ⟨2, [⟨1, 42, 100, none, "пятница", TimeVal.structured 9 30, "standup"⟩], []⟩).map rowJob,
      j.id = 1 ∧ j.tz = "UTC" :=
  C5_rehydrate_missing_tz_uses_utc
    ⟨2, [⟨1, 42, 100, none, "пятница", TimeVal.structured 9 30, "standup"⟩], []⟩
    ⟨1, 42, 100, none, "пятница", TimeVal.structured 9 30, "standup"⟩
    (by decide) (by decide) (by decide) (by decide)

/-! ## Claim C8 -/

set_option maxHeartbeats 1000000 in
/-- For every in-range hour and minute, the literal "HH:MM" string parses
back to the same pair through the string branch of the load_jobs time
normalization. -/
theorem timeHM_fmtHHMM : ∀ h : Fin 24, ∀ m : Fin 60,
    timeHM (TimeVal.str (fmtHHMM h.val m.val)) = some ((h.val : Int), (m.val : Int)) := by
  decide

/-- Claim C8: for every hour h in 0-23 and minute m in 0-59, a time supplied
as a structured time value and the same time supplied as the literal "HH:MM"
string are both accepted without error (both normalize to some (h, m)) and
produce identical armed triggers: installing the two rows that differ only
in the time representation arms the very same job, with hour h and
minute m. -/
theorem C8_structured_and_string_time_equal (h m : Nat) (hlt : h < 24) (mlt : m < 60)
    (rid : Nat) (day cron txt tz : String) (cid : Int) (thr : Option Int)
    (sched : Scheduler)
    (hday : ruToCronDay day = some cron)
    (hfresh : ∀ k ∈ sched.jobs, k.id ≠ rid) :
    timeHM (TimeVal.structured h m) = some ((h : Int), (m : Int)) ∧
    timeHM (TimeVal.str (fmtHHMM h m)) = some ((h : Int), (m : Int)) ∧
    installRow sched ⟨rid, day, TimeVal.structured h m, txt, cid, thr, tz⟩ =
      Except.ok ⟨sched.jobs ++ [⟨rid, cron, (h : Int), (m : Int), tz, cid, thr, txt⟩]⟩ ∧
    installRow sched ⟨rid, day, TimeVal.str (fmtHHMM h m), txt, cid, thr, tz⟩ =
      Except.ok ⟨sched.jobs ++ [⟨rid, cron, (h : Int), (m : Int), tz, cid, thr, txt⟩]⟩ := by
  have hstr := timeHM_fmtHHMM ⟨h, hlt⟩ ⟨m, mlt⟩
  refine ⟨rfl, hstr, ?_, ?_⟩
  · simp only [installRow, timeHM, hday]
    exact addJob_fresh sched _ hfresh
  · simp only [installRow, hstr, hday]
    exact addJob_fresh sched _ hfresh

/-- Claim C8, witness at 14:30. -/
theorem C8_witness :
    timeHM (TimeVal.structured 14 30) = some (((14 : Nat) : Int), ((30 : Nat) : Int)) ∧
    timeHM (TimeVal.str (fmtHHMM 14 30)) = some (((14 : Nat) : Int), ((30 : Nat) : Int)) ∧
    installRow ⟨[]⟩ ⟨6, "вторник", TimeVal.structured 14 30, "t", 100, none, "UTC"⟩ =
      Except.ok ⟨(⟨[]⟩ : Scheduler).jobs ++
        [⟨6, "tue", ((14 : Nat) : Int), ((30 : Nat) : Int), "UTC", 100, none, "t"⟩]⟩ ∧
    installRow ⟨[]⟩ ⟨6, "вторник", TimeVal.str (fmtHHMM 14 30), "t", 100, none, "UTC"⟩ =
      Except.ok ⟨(⟨[]⟩ : Scheduler).jobs ++
        [⟨6, "tue", ((14 : Nat) : Int), ((30 : Nat) : Int), "UTC", 100, none, "t"⟩]⟩ :=
  C8_structured_and_string_time_equal 14 30 (by decide) (by decide) 6 "вторник" "tue" "t"
    "UTC" 100 none ⟨[]⟩ (by decide) (by decide)
